import Mathlib

/-!
Shallow embedding of the consensus ZMQ driver (src/consensus/zmq_driver.rs)
of the sawtooth-sdk-rust repository, together with proofs checking the
natural-language specification against the code.

The transport (message connection, sockets), the protobuf codec and the
engine trait are external collaborators; they are modelled by their
interfaces.  Payload bytes are modelled by a typed sum (a payload either is
the wire encoding of one structured record or is raw bytes that decode as
none of them), which mirrors the spec treating payload encoding as opaque,
already-decoded structured records.  Randomness (correlation-id generation)
is modelled by an explicit sampler stream, and side effects of the driver
loop (channel sends and transport replies) by an explicit effect trace.
-/

/-- Opaque byte strings of the wire format. -/
abbrev Bytes := List Nat

/-- The wire message-type tags used by the driver
(Message_MessageType in src).  Tags that the driver never matches on
individually are collected in the catch-all constructor. -/
inductive MessageType where
  | PING_REQUEST
  | PING_RESPONSE
  | CONSENSUS_REGISTER_REQUEST
  | CONSENSUS_REGISTER_RESPONSE
  | CONSENSUS_NOTIFY_PEER_CONNECTED
  | CONSENSUS_NOTIFY_PEER_DISCONNECTED
  | CONSENSUS_NOTIFY_PEER_MESSAGE
  | CONSENSUS_NOTIFY_BLOCK_NEW
  | CONSENSUS_NOTIFY_BLOCK_VALID
  | CONSENSUS_NOTIFY_BLOCK_INVALID
  | CONSENSUS_NOTIFY_BLOCK_COMMIT
  | CONSENSUS_NOTIFY_ENGINE_ACTIVATED
  | CONSENSUS_NOTIFY_ENGINE_DEACTIVATED
  | CONSENSUS_NOTIFY_ACK
  | otherTag (n : Nat)
deriving DecidableEq, Repr

/-- Debug rendering of a tag, standing in for the Rust Debug formatting
used in the error strings of register. -/
def MessageType.debugName : MessageType → String
  | .PING_REQUEST => "PING_REQUEST"
  | .PING_RESPONSE => "PING_RESPONSE"
  | .CONSENSUS_REGISTER_REQUEST => "CONSENSUS_REGISTER_REQUEST"
  | .CONSENSUS_REGISTER_RESPONSE => "CONSENSUS_REGISTER_RESPONSE"
  | .CONSENSUS_NOTIFY_PEER_CONNECTED => "CONSENSUS_NOTIFY_PEER_CONNECTED"
  | .CONSENSUS_NOTIFY_PEER_DISCONNECTED => "CONSENSUS_NOTIFY_PEER_DISCONNECTED"
  | .CONSENSUS_NOTIFY_PEER_MESSAGE => "CONSENSUS_NOTIFY_PEER_MESSAGE"
  | .CONSENSUS_NOTIFY_BLOCK_NEW => "CONSENSUS_NOTIFY_BLOCK_NEW"
  | .CONSENSUS_NOTIFY_BLOCK_VALID => "CONSENSUS_NOTIFY_BLOCK_VALID"
  | .CONSENSUS_NOTIFY_BLOCK_INVALID => "CONSENSUS_NOTIFY_BLOCK_INVALID"
  | .CONSENSUS_NOTIFY_BLOCK_COMMIT => "CONSENSUS_NOTIFY_BLOCK_COMMIT"
  | .CONSENSUS_NOTIFY_ENGINE_ACTIVATED => "CONSENSUS_NOTIFY_ENGINE_ACTIVATED"
  | .CONSENSUS_NOTIFY_ENGINE_DEACTIVATED => "CONSENSUS_NOTIFY_ENGINE_DEACTIVATED"
  | .CONSENSUS_NOTIFY_ACK => "CONSENSUS_NOTIFY_ACK"
  | .otherTag n => "OTHER_" ++ toString n

/-- Wire record: consensus block (messages/consensus ConsensusBlock). -/
structure ConsensusBlock where
  block_id : Bytes
  previous_id : Bytes
  signer_id : Bytes
  block_num : Nat
  payload : Bytes
  summary : Bytes
deriving DecidableEq, Inhabited, Repr

/-- Wire record: peer info (ConsensusPeerInfo). -/
structure ConsensusPeerInfo where
  peer_id : Bytes
deriving DecidableEq, Inhabited, Repr

/-- Wire record: peer-message header (ConsensusPeerMessageHeader). -/
structure ConsensusPeerMessageHeader where
  signer_id : Bytes
  content_sha512 : Bytes
  message_type : String
  name : String
  version : String
deriving DecidableEq, Inhabited, Repr

/-- The header bytes carried inside a ConsensusPeerMessage: either bytes
that parse as a ConsensusPeerMessageHeader, or bytes that do not. -/
inductive HeaderBytes where
  | parsed (h : ConsensusPeerMessageHeader)
  | malformed (bs : Bytes)
deriving DecidableEq, Inhabited, Repr

/-- Wire record: consensus peer message (ConsensusPeerMessage).  The header
field holds the encoded header bytes, which handle_update parses separately. -/
structure ConsensusPeerMessage where
  header : HeaderBytes
  header_signature : Bytes
  content : Bytes
deriving DecidableEq, Inhabited, Repr

/-- Registration response status (ConsensusRegisterResponse_Status). -/
inductive ConsensusRegisterResponse_Status where
  | STATUS_UNSET
  | OK
  | NOT_READY
deriving DecidableEq, Inhabited, Repr

/-- Debug rendering of a status, standing in for the Rust Debug formatting. -/
def ConsensusRegisterResponse_Status.debugName :
    ConsensusRegisterResponse_Status → String
  | .STATUS_UNSET => "STATUS_UNSET"
  | .OK => "OK"
  | .NOT_READY => "NOT_READY"

/-- Wire record: registration response (ConsensusRegisterResponse). -/
structure ConsensusRegisterResponse where
  status : ConsensusRegisterResponse_Status
  chain_head : Option ConsensusBlock
  peers : List ConsensusPeerInfo
  local_peer_info : Option ConsensusPeerInfo
deriving DecidableEq, Inhabited, Repr

/-- Wire record: engine-activated notification (ConsensusNotifyEngineActivated). -/
structure ConsensusNotifyEngineActivated where
  chain_head : Option ConsensusBlock
  peers : List ConsensusPeerInfo
  local_peer_info : Option ConsensusPeerInfo
deriving DecidableEq, Inhabited, Repr

/-- Wire record: peer-connected notification. -/
structure ConsensusNotifyPeerConnected where
  peer_info : Option ConsensusPeerInfo
deriving DecidableEq, Inhabited, Repr

/-- Wire record: peer-disconnected notification. -/
structure ConsensusNotifyPeerDisconnected where
  peer_id : Bytes
deriving DecidableEq, Inhabited, Repr

/-- Wire record: peer-message notification. -/
structure ConsensusNotifyPeerMessage where
  message : Option ConsensusPeerMessage
  sender_id : Bytes
deriving DecidableEq, Inhabited, Repr

/-- Wire record: block-new notification. -/
structure ConsensusNotifyBlockNew where
  block : Option ConsensusBlock
deriving DecidableEq, Inhabited, Repr

/-- Wire record: block-valid notification. -/
structure ConsensusNotifyBlockValid where
  block_id : Bytes
deriving DecidableEq, Inhabited, Repr

/-- Wire record: block-invalid notification. -/
structure ConsensusNotifyBlockInvalid where
  block_id : Bytes
deriving DecidableEq, Inhabited, Repr

/-- Wire record: block-commit notification. -/
structure ConsensusNotifyBlockCommit where
  block_id : Bytes
deriving DecidableEq, Inhabited, Repr

/-- The content payload of a protocol message.  A payload either is the
wire encoding of exactly one of the structured records the driver parses,
or is raw bytes that parse as none of them.  This models the protobuf
codec, which the spec treats as an external collaborator producing opaque,
already-decoded structured records. -/
inductive Payload where
  | registerResponse (r : ConsensusRegisterResponse)
  | engineActivated (r : ConsensusNotifyEngineActivated)
  | peerConnected (r : ConsensusNotifyPeerConnected)
  | peerDisconnected (r : ConsensusNotifyPeerDisconnected)
  | peerMessage (r : ConsensusNotifyPeerMessage)
  | blockNew (r : ConsensusNotifyBlockNew)
  | blockValid (r : ConsensusNotifyBlockValid)
  | blockInvalid (r : ConsensusNotifyBlockInvalid)
  | blockCommit (r : ConsensusNotifyBlockCommit)
  | rawBytes (bs : Bytes)
deriving DecidableEq, Repr

/-- Protocol message envelope (messages/validator Message): a message-type
tag, a correlation id, and a content payload. -/
structure Message where
  message_type : MessageType
  correlation_id : String
  content : Payload
deriving DecidableEq, Repr

/-- Modelled from the spec: the error taxonomy of consensus/engine.rs,
which is not under src/.  The variants EncodingError, SendError and
ReceiveError are exactly the ones src/consensus/zmq_driver.rs constructs
(the spec section 7 names further kinds; the code in src only ever builds
these three). -/
inductive Error where
  | EncodingError (s : String)
  | SendError (s : String)
  | ReceiveError (s : String)
deriving DecidableEq, Repr

/-- Modelled from the spec: domain peer info (consensus/engine.rs). -/
structure PeerInfo where
  peer_id : Bytes
deriving DecidableEq, Inhabited, Repr

/-- Modelled from the spec: domain block (consensus/engine.rs). -/
structure Block where
  block_id : Bytes
  previous_id : Bytes
  signer_id : Bytes
  block_num : Nat
  payload : Bytes
  summary : Bytes
deriving DecidableEq, Inhabited, Repr

/-- Modelled from the spec: domain peer-message header (consensus/engine.rs). -/
structure PeerMessageHeader where
  signer_id : Bytes
  content_sha512 : Bytes
  message_type : String
  name : String
  version : String
deriving DecidableEq, Inhabited, Repr

/-- Modelled from the spec: domain peer message (consensus/engine.rs).
The header_bytes field carries the raw encoded header exactly as received. -/
structure PeerMessage where
  header : PeerMessageHeader
  header_bytes : HeaderBytes
  header_signature : Bytes
  content : Bytes
deriving DecidableEq, Inhabited, Repr

/-- Modelled from the spec: the Update domain event of consensus/engine.rs,
the tagged union delivered to engine logic. -/
inductive Update where
  | PeerConnected (p : PeerInfo)
  | PeerDisconnected (peer_id : Bytes)
  | PeerMessage (m : PeerMessage) (sender_id : Bytes)
  | BlockNew (b : Block)
  | BlockValid (block_id : Bytes)
  | BlockInvalid (block_id : Bytes)
  | BlockCommit (block_id : Bytes)
  | Shutdown
deriving DecidableEq, Repr

/-- Modelled from the spec: the startup state of consensus/engine.rs. -/
structure StartupState where
  chain_head : Block
  peers : List PeerInfo
  local_peer_info : PeerInfo
deriving DecidableEq, Inhabited, Repr

/-- The From impl turning a ConsensusBlock into a Block (src). -/
def Block.fromConsensus (c : ConsensusBlock) : Block :=
  { block_id := c.block_id
    previous_id := c.previous_id
    signer_id := c.signer_id
    block_num := c.block_num
    payload := c.payload
    summary := c.summary }

/-- The From impl turning a ConsensusPeerInfo into a PeerInfo (src). -/
def PeerInfo.fromConsensus (c : ConsensusPeerInfo) : PeerInfo :=
  { peer_id := c.peer_id }

/-- The from_consensus_peer_message function (src): combine a peer message and its
separately parsed header into the domain PeerMessage. -/
def from_consensus_peer_message (c_msg : ConsensusPeerMessage)
    (c_msg_header : ConsensusPeerMessageHeader) : PeerMessage :=
  { header :=
      { signer_id := c_msg_header.signer_id
        content_sha512 := c_msg_header.content_sha512
        message_type := c_msg_header.message_type
        name := c_msg_header.name
        version := c_msg_header.version }
    header_bytes := c_msg.header
    header_signature := c_msg.header_signature
    content := c_msg.content }

/-! ## Registration handshake (register in src) -/

/-- The INITAL_RETRY_DELAY constant, in milliseconds (src). -/
def INITAL_RETRY_DELAY : Nat := 100

/-- The MAX_RETRY_DELAY constant, in milliseconds (src). -/
def MAX_RETRY_DELAY : Nat := 3000

/-- The parse_from_bytes call for ConsensusRegisterResponse: succeeds exactly when
the payload is the encoding of such a record. -/
def parseRegisterResponse : Payload → Except Error ConsensusRegisterResponse
  | .registerResponse r => .ok r
  | _ => .error (.EncodingError "invalid ConsensusRegisterResponse")

/-- One externally observable action of register: an outbound registration
request (recorded with the invocation index of the correlation-id
generator, each send calling generate_correlation_id afresh), or a sleep
of the calling thread for the given number of milliseconds. -/
inductive RegAction where
  | sent (cidInvocation : Nat)
  | slept (ms : Nat)
deriving DecidableEq, Repr

/-- The retry-delay update performed by register after sleeping on a
NOT_READY status: double the delay if it is below the cap, clamping the
result to MAX_RETRY_DELAY. -/
def retryStep (d : Nat) : Nat :=
  if d < MAX_RETRY_DELAY then
    if d * 2 > MAX_RETRY_DELAY then MAX_RETRY_DELAY else d * 2
  else d

/-- StartupState built by the OK arm of register from a registration
response (take_ accessors return the field value or the protobuf default). -/
def startupOfRegister (r : ConsensusRegisterResponse) : StartupState :=
  { chain_head := Block.fromConsensus (r.chain_head.getD default)
    peers := r.peers.map PeerInfo.fromConsensus
    local_peer_info := PeerInfo.fromConsensus (r.local_peer_info.getD default) }

/-- The reply the transport hands back for one registration request:
either a message or a send/receive/timeout failure surfaced through the
question-mark operator. -/
abbrev RegReply := Except Error Message

/-- The retry loop of register.  The current reply msg is examined with
the current retry delay d; k is the invocation index of the correlation-id
generator for the next resend; replies lists the transport replies to the
subsequent resends, in order.  Returns the trace of actions taken by this
loop together with: some result when the loop broke, or none when the
supplied replies were exhausted with the loop still waiting. -/
def registerLoop (msg : Message) (d k : Nat) (replies : List RegReply) :
    List RegAction × Option (Except Error (Option StartupState)) :=
  match msg.message_type with
  | .CONSENSUS_REGISTER_RESPONSE =>
    match parseRegisterResponse msg.content with
    | .error e => ([], some (.error e))
    | .ok response =>
      match response.status with
      | .OK =>
        ([], some (.ok
          (if response.chain_head.isSome && response.local_peer_info.isSome then
            some (startupOfRegister response)
          else
            none)))
      | .NOT_READY =>
        match replies with
        | [] => ([.slept d, .sent k], none)
        | .error e :: _ => ([.slept d, .sent k], some (.error e))
        | .ok next :: rest =>
          let t := registerLoop next (retryStep d) (k + 1) rest
          (.slept d :: .sent k :: t.1, t.2)
      | status =>
        ([], some (.error (.ReceiveError
          ("Registration failed with status " ++ status.debugName))))
  | unexpected =>
    ([], some (.error (.ReceiveError
      ("Received unexpected message type: " ++ unexpected.debugName))))

/-- The register function (src): send the registration request with a fresh correlation
id, then run the retry loop starting from INITAL_RETRY_DELAY.  The
element at position i of replies is the transport reply to the i-th
request sent. -/
def register (replies : List RegReply) :
    List RegAction × Option (Except Error (Option StartupState)) :=
  match replies with
  | [] => ([.sent 0], none)
  | .error e :: _ => ([.sent 0], some (.error e))
  | .ok msg :: rest =>
    let t := registerLoop msg INITAL_RETRY_DELAY 1 rest
    (.sent 0 :: t.1, t.2)

/-! ## Correlation-id generation (generate_correlation_id in src) -/

/-- The LENGTH constant declared inside generate_correlation_id. -/
def LENGTH : Nat := 16

/-- A Rust range value lo..hi. -/
structure RustRange where
  lo : Nat
  hi : Nat
deriving DecidableEq, Repr

/-- The Rust array literal written with square brackets around the single
range expression 0..LENGTH: an array of one element, that range. -/
def corrIdArray : List RustRange := [{ lo := 0, hi := LENGTH }]

/-- The generate_correlation_id function (src): iterate over corrIdArray, drawing one
sample from the alphanumeric distribution per element and collecting the
characters into a string.  The random generator is modelled by the stream
sample of its successive draws. -/
def generate_correlation_id (sample : Nat → Char) : String :=
  String.mk ((corrIdArray.enum.map (fun p => sample p.1)))

/-! ## Driver loop effects -/

/-- An externally observable effect of the driver loop or of
wait_until_active: queueing an Update on the event channel, or sending a
fire-and-forget reply (acknowledgment or ping response) on the transport
with the given message type and correlation id. -/
inductive Effect where
  | queued (u : Update)
  | sentReply (t : MessageType) (cid : String)
deriving DecidableEq, Repr

/-- The Updates contained in an effect trace, in order. -/
def updatesOf (effs : List Effect) : List Update :=
  effs.filterMap (fun e =>
    match e with
    | .queued u => some u
    | .sentReply _ _ => none)

/-! ## Update translation (handle_update in src) -/

def parsePeerConnected : Payload → Except Error ConsensusNotifyPeerConnected
  | .peerConnected r => .ok r
  | _ => .error (.EncodingError "invalid ConsensusNotifyPeerConnected")

def parsePeerDisconnected : Payload → Except Error ConsensusNotifyPeerDisconnected
  | .peerDisconnected r => .ok r
  | _ => .error (.EncodingError "invalid ConsensusNotifyPeerDisconnected")

def parsePeerMessage : Payload → Except Error ConsensusNotifyPeerMessage
  | .peerMessage r => .ok r
  | _ => .error (.EncodingError "invalid ConsensusNotifyPeerMessage")

def parseHeader : HeaderBytes → Except Error ConsensusPeerMessageHeader
  | .parsed h => .ok h
  | .malformed _ => .error (.EncodingError "invalid ConsensusPeerMessageHeader")

def parseBlockNew : Payload → Except Error ConsensusNotifyBlockNew
  | .blockNew r => .ok r
  | _ => .error (.EncodingError "invalid ConsensusNotifyBlockNew")

def parseBlockValid : Payload → Except Error ConsensusNotifyBlockValid
  | .blockValid r => .ok r
  | _ => .error (.EncodingError "invalid ConsensusNotifyBlockValid")

def parseBlockInvalid : Payload → Except Error ConsensusNotifyBlockInvalid
  | .blockInvalid r => .ok r
  | _ => .error (.EncodingError "invalid ConsensusNotifyBlockInvalid")

def parseBlockCommit : Payload → Except Error ConsensusNotifyBlockCommit
  | .blockCommit r => .ok r
  | _ => .error (.EncodingError "invalid ConsensusNotifyBlockCommit")

def parseEngineActivated : Payload → Except Error ConsensusNotifyEngineActivated
  | .engineActivated r => .ok r
  | _ => .error (.EncodingError "invalid ConsensusNotifyEngineActivated")

/-- The pure translation step of handle_update (src): from the message
tag and content, build the Update, failing on malformed content.  The
result some u means the match produced Update u; none means the message
type fell to the default arm, which logs and returns success. -/
def decode_update (msg : Message) : Except Error (Option Update) :=
  match msg.message_type with
  | .CONSENSUS_NOTIFY_PEER_CONNECTED =>
    match parsePeerConnected msg.content with
    | .error e => .error e
    | .ok request =>
      .ok (some (.PeerConnected (PeerInfo.fromConsensus (request.peer_info.getD default))))
  | .CONSENSUS_NOTIFY_PEER_DISCONNECTED =>
    match parsePeerDisconnected msg.content with
    | .error e => .error e
    | .ok request => .ok (some (.PeerDisconnected request.peer_id))
  | .CONSENSUS_NOTIFY_PEER_MESSAGE =>
    match parsePeerMessage msg.content with
    | .error e => .error e
    | .ok request =>
      match parseHeader (request.message.getD default).header with
      | .error e => .error e
      | .ok header =>
        .ok (some (.PeerMessage
          (from_consensus_peer_message (request.message.getD default) header)
          request.sender_id))
  | .CONSENSUS_NOTIFY_BLOCK_NEW =>
    match parseBlockNew msg.content with
    | .error e => .error e
    | .ok request =>
      .ok (some (.BlockNew (Block.fromConsensus (request.block.getD default))))
  | .CONSENSUS_NOTIFY_BLOCK_VALID =>
    match parseBlockValid msg.content with
    | .error e => .error e
    | .ok request => .ok (some (.BlockValid request.block_id))
  | .CONSENSUS_NOTIFY_BLOCK_INVALID =>
    match parseBlockInvalid msg.content with
    | .error e => .error e
    | .ok request => .ok (some (.BlockInvalid request.block_id))
  | .CONSENSUS_NOTIFY_BLOCK_COMMIT =>
    match parseBlockCommit msg.content with
    | .error e => .error e
    | .ok request => .ok (some (.BlockCommit request.block_id))
  | .CONSENSUS_NOTIFY_ENGINE_DEACTIVATED => .ok (some .Shutdown)
  | _ => .ok none

/-- The handle_update function (src), with the health of the two outbound paths made
explicit: chanOk tells whether the mpsc send on the update channel
succeeds (false models the receiver having been dropped; a failed mpsc
send queues nothing), replyOk whether the transport reply succeeds.
Returns the ordered effect trace and the function result. -/
def handle_update (msg : Message) (chanOk replyOk : Bool) :
    List Effect × Except Error Unit :=
  match decode_update msg with
  | .error e => ([], .error e)
  | .ok none => ([], .ok ())
  | .ok (some update) =>
    if chanOk then
      if replyOk then
        ([.queued update, .sentReply .CONSENSUS_NOTIFY_ACK msg.correlation_id], .ok ())
      else
        ([.queued update], .error (.SendError "reply send failed"))
    else
      ([], .error (.SendError "update receiver disconnected"))

/-! ## Driver loop (driver_loop in src) -/

/-- Outcome of one recv_timeout call on the validator receiver. -/
inductive RecvOutcome where
  | timeout
  | disconnected
  | recvErr (e : String)
  | msg (m : Message)
deriving DecidableEq, Repr

/-- The environment of one driver-loop iteration: the receive outcome,
whether a stop signal is pending at the points where the loop polls
stop_receiver.try_recv during this iteration, and the health of the
update channel and of the transport reply path during this iteration. -/
structure LoopIter where
  recv : RecvOutcome
  stopSet : Bool
  chanOk : Bool
  replyOk : Bool
deriving DecidableEq, Repr

/-- The send_ping_reply call (src) as an effect: a PING_RESPONSE on the same
correlation id. -/
def send_ping_reply (cid : String) : Effect :=
  .sentReply .PING_RESPONSE cid

/-- The driver_loop function (src), iterated over a finite list of per-iteration
environments.  Returns the ordered effect trace and: some r when the loop
broke with result r, or none when the supplied iterations were exhausted
with the loop still running. -/
def driver_loop : List LoopIter → List Effect × Option (Except Error Unit)
  | [] => ([], none)
  | it :: rest =>
    match it.recv with
    | .timeout =>
      if it.stopSet then
        if it.chanOk then ([.queued .Shutdown], some (.ok ()))
        else ([], some (.error (.SendError "update receiver disconnected")))
      else driver_loop rest
    | .disconnected => ([], some (.error (.ReceiveError "Sender disconnected")))
    | .recvErr e =>
      ([], some (.error (.ReceiveError ("Unexpected error while receiving: " ++ e))))
    | .msg m =>
      if m.message_type = .PING_REQUEST then
        if it.replyOk then
          let t := driver_loop rest
          (send_ping_reply m.correlation_id :: t.1, t.2)
        else ([], some (.error (.SendError "reply send failed")))
      else
        match handle_update m it.chanOk it.replyOk with
        | (effs, .error e) => (effs, some (.error e))
        | (effs, .ok _) =>
          if it.stopSet then
            if it.chanOk then (effs ++ [.queued .Shutdown], some (.ok ()))
            else (effs, some (.error (.SendError "update receiver disconnected")))
          else
            let t := driver_loop rest
            (effs ++ t.1, t.2)

/-! ## Activation waiter (wait_until_active in src) -/

/-- The environment of one wait_until_active iteration: the receive
outcome and whether the acknowledgment reply would succeed. -/
structure WaitIter where
  recv : RecvOutcome
  replyOk : Bool
deriving DecidableEq, Repr

/-- StartupState built by wait_until_active from an engine-activated
notification. -/
def startupOfActivated (c : ConsensusNotifyEngineActivated) : StartupState :=
  { chain_head := Block.fromConsensus (c.chain_head.getD default)
    peers := c.peers.map PeerInfo.fromConsensus
    local_peer_info := PeerInfo.fromConsensus (c.local_peer_info.getD default) }

/-- The wait_until_active function (src), iterated over a finite list of per-iteration
environments.  Timeouts and messages of any type other than the
engine-activated notification are ignored without any effect.  Returns the
effect trace and: some r when the function returned r, or none when the
iterations were exhausted with the wait still in progress. -/
def wait_until_active : List WaitIter → List Effect × Option (Except Error StartupState)
  | [] => ([], none)
  | it :: rest =>
    match it.recv with
    | .timeout => wait_until_active rest
    | .disconnected => ([], some (.error (.ReceiveError "Sender disconnected")))
    | .recvErr e =>
      ([], some (.error (.ReceiveError ("Unexpected error while receiving: " ++ e))))
    | .msg m =>
      if m.message_type = .CONSENSUS_NOTIFY_ENGINE_ACTIVATED then
        match parseEngineActivated m.content with
        | .error e => ([], some (.error e))
        | .ok content =>
          if it.replyOk then
            ([.sentReply .CONSENSUS_NOTIFY_ACK m.correlation_id],
              some (.ok (startupOfActivated content)))
          else ([], some (.error (.SendError "reply send failed")))
      else wait_until_active rest

/-! ## Stop handle (Stop in src) -/

/-- State of the mpsc stop channel: how many stop signals are queued and
whether the receiving end (owned by the driver loop thread) is still
alive. -/
structure StopChannel where
  pending : Nat
  receiverAlive : Bool
deriving DecidableEq, Repr

/-- How one call into Stop.stop returns to its caller: a normal return
(logging an error message or not), or a panic.  The mpsc send itself
never blocks and never panics; it reports a dropped receiver through its
Result, which is what the constructor returned true records. -/
inductive CallOutcome where
  | returned (loggedError : Bool)
  | panicked
deriving DecidableEq, Repr

/-- The std mpsc Sender send on the stop channel: enqueue if the receiver
is alive, otherwise report an error through the Result. -/
def mpscSend (c : StopChannel) : Except Unit StopChannel :=
  if c.receiverAlive then .ok { c with pending := c.pending + 1 } else .error ()

/-- The Stop.stop method (src): send on the stop channel and turn a send failure
into a log message via unwrap_or_else, never a panic. -/
def Stop.stop (c : StopChannel) : StopChannel × CallOutcome :=
  match mpscSend c with
  | .ok c2 => (c2, .returned false)
  | .error _ => (c, .returned true)

/-- Repeated calls of Stop.stop, n of them in sequence, returning the final channel state and
the outcomes of the calls in order. -/
def stopCalls : Nat → StopChannel → StopChannel × List CallOutcome
  | 0, c => (c, [])
  | n + 1, c =>
    let r := Stop.stop c
    let t := stopCalls n r.1
    (t.1, r.2 :: t.2)

/-! ## Spec-side harness definitions

Well-formed notification messages (the ones the loop forwards as Updates)
and the expected traces the spec describes, used to state the claims. -/

/-- A well-formed, decodable non-ping notification message, as the spec's
mapping table enumerates them.  Carries the structured payload and the
correlation id of the envelope. -/
inductive Notification where
  | peerConnected (r : ConsensusNotifyPeerConnected) (cid : String)
  | peerDisconnected (r : ConsensusNotifyPeerDisconnected) (cid : String)
  | peerMessage (h : ConsensusPeerMessageHeader)
      (hsig body sender_id : Bytes) (cid : String)
  | blockNew (r : ConsensusNotifyBlockNew) (cid : String)
  | blockValid (r : ConsensusNotifyBlockValid) (cid : String)
  | blockInvalid (r : ConsensusNotifyBlockInvalid) (cid : String)
  | blockCommit (r : ConsensusNotifyBlockCommit) (cid : String)
  | engineDeactivated (p : Payload) (cid : String)
deriving DecidableEq, Repr

/-- The wire envelope of a notification. -/
def Notification.toMessage : Notification → Message
  | .peerConnected r cid =>
    { message_type := .CONSENSUS_NOTIFY_PEER_CONNECTED, correlation_id := cid
      content := .peerConnected r }
  | .peerDisconnected r cid =>
    { message_type := .CONSENSUS_NOTIFY_PEER_DISCONNECTED, correlation_id := cid
      content := .peerDisconnected r }
  | .peerMessage h hsig body sender_id cid =>
    { message_type := .CONSENSUS_NOTIFY_PEER_MESSAGE, correlation_id := cid
      content := .peerMessage
        { message := some { header := .parsed h, header_signature := hsig, content := body }
          sender_id := sender_id } }
  | .blockNew r cid =>
    { message_type := .CONSENSUS_NOTIFY_BLOCK_NEW, correlation_id := cid
      content := .blockNew r }
  | .blockValid r cid =>
    { message_type := .CONSENSUS_NOTIFY_BLOCK_VALID, correlation_id := cid
      content := .blockValid r }
  | .blockInvalid r cid =>
    { message_type := .CONSENSUS_NOTIFY_BLOCK_INVALID, correlation_id := cid
      content := .blockInvalid r }
  | .blockCommit r cid =>
    { message_type := .CONSENSUS_NOTIFY_BLOCK_COMMIT, correlation_id := cid
      content := .blockCommit r }
  | .engineDeactivated p cid =>
    { message_type := .CONSENSUS_NOTIFY_ENGINE_DEACTIVATED, correlation_id := cid
      content := p }

/-- The correlation id of a notification. -/
def Notification.cid : Notification → String
  | .peerConnected _ cid => cid
  | .peerDisconnected _ cid => cid
  | .peerMessage _ _ _ _ cid => cid
  | .blockNew _ cid => cid
  | .blockValid _ cid => cid
  | .blockInvalid _ cid => cid
  | .blockCommit _ cid => cid
  | .engineDeactivated _ cid => cid

/-- The Update the spec's mapping table assigns to a notification. -/
def Notification.toUpdate : Notification → Update
  | .peerConnected r _ =>
    .PeerConnected (PeerInfo.fromConsensus (r.peer_info.getD default))
  | .peerDisconnected r _ => .PeerDisconnected r.peer_id
  | .peerMessage h hsig body sender_id _ =>
    .PeerMessage
      (from_consensus_peer_message
        { header := .parsed h, header_signature := hsig, content := body } h)
      sender_id
  | .blockNew r _ => .BlockNew (Block.fromConsensus (r.block.getD default))
  | .blockValid r _ => .BlockValid r.block_id
  | .blockInvalid r _ => .BlockInvalid r.block_id
  | .blockCommit r _ => .BlockCommit r.block_id
  | .engineDeactivated _ _ => .Shutdown

/-- The effects one cleanly handled notification produces: its Update is
queued, then the acknowledgment is sent on its correlation id. -/
def Notification.effects (n : Notification) : List Effect :=
  [.queued n.toUpdate, .sentReply .CONSENSUS_NOTIFY_ACK n.cid]

/-- A driver-loop iteration that receives a notification with no stop
signal pending and both outbound paths healthy. -/
def cleanIter (n : Notification) : LoopIter :=
  { recv := .msg n.toMessage, stopSet := false, chanOk := true, replyOk := true }

/-- A driver-loop iteration whose receive times out while a stop signal
is pending, with the update channel healthy. -/
def stopTimeoutIter : LoopIter :=
  { recv := .timeout, stopSet := true, chanOk := true, replyOk := true }

/-- The backoff delay the spec prescribes before the i-th resend:
100 milliseconds doubled i times, capped at 3000. -/
def expectedDelay (i : Nat) : Nat := min (100 * 2 ^ i) 3000

/-- The action trace the spec prescribes for a registration handshake
that sees n NOT_READY responses: the initial send, then for each
NOT_READY a sleep of the i-th backoff delay followed by a resend with a
fresh correlation-id invocation. -/
def expectedRegActions (n : Nat) : List RegAction :=
  .sent 0 :: (List.range n).flatMap (fun i => [.slept (expectedDelay i), .sent (i + 1)])

/-- The sleep durations of an action trace, in order. -/
def sleepsOf (actions : List RegAction) : List Nat :=
  actions.filterMap (fun a =>
    match a with
    | .slept ms => some ms
    | .sent _ => none)

/-- The correlation-id generator invocations of the sends of an action
trace, in order. -/
def sendsOf (actions : List RegAction) : List Nat :=
  actions.filterMap (fun a =>
    match a with
    | .slept _ => none
    | .sent k => some k)

/-- The transport reply carrying a registration response with NOT_READY
status and the remaining fields of r. -/
def notReadyWire (r : ConsensusRegisterResponse) : RegReply :=
  .ok
    { message_type := .CONSENSUS_REGISTER_RESPONSE, correlation_id := ""
      content := .registerResponse { r with status := .NOT_READY } }

/-- The transport reply carrying a registration response with OK status
and the remaining fields of r. -/
def okWire (r : ConsensusRegisterResponse) : RegReply :=
  .ok
    { message_type := .CONSENSUS_REGISTER_RESPONSE, correlation_id := ""
      content := .registerResponse { r with status := .OK } }

/-- Whether wait_until_active ignores this iteration: a timeout, or a
message whose type is not the engine-activated notification. -/
def WaitIter.ignored (it : WaitIter) : Bool :=
  match it.recv with
  | .timeout => true
  | .msg m => decide (m.message_type ≠ .CONSENSUS_NOTIFY_ENGINE_ACTIVATED)
  | _ => false

/-! ## Helper lemmas -/

lemma Notification.cid_toMessage (n : Notification) :
    n.toMessage.correlation_id = n.cid := by
  cases n <;> rfl

lemma Notification.decode_toMessage (n : Notification) :
    decode_update n.toMessage = .ok (some n.toUpdate) := by
  cases n <;> rfl

lemma Notification.toMessage_not_ping (n : Notification) :
    n.toMessage.message_type ≠ .PING_REQUEST := by
  cases n <;> simp [Notification.toMessage]

lemma handle_update_clean (n : Notification) :
    handle_update n.toMessage true true = (n.effects, .ok ()) := by
  simp [handle_update, n.decode_toMessage, Notification.effects, n.cid_toMessage]

lemma driver_loop_cons_clean (n : Notification) (rest : List LoopIter) :
    driver_loop (cleanIter n :: rest)
      = (n.effects ++ (driver_loop rest).1, (driver_loop rest).2) := by
  simp [driver_loop, cleanIter, n.toMessage_not_ping, handle_update_clean]

lemma driver_loop_clean_append (ns : List Notification) (rest : List LoopIter) :
    driver_loop (ns.map cleanIter ++ rest)
      = (ns.flatMap Notification.effects ++ (driver_loop rest).1, (driver_loop rest).2) := by
  induction ns with
  | nil => simp
  | cons n ns ih => simp [driver_loop_cons_clean, ih]

lemma updatesOf_append (a b : List Effect) :
    updatesOf (a ++ b) = updatesOf a ++ updatesOf b := by
  simp [updatesOf, List.filterMap_append]

lemma updatesOf_effects (n : Notification) :
    updatesOf n.effects = [n.toUpdate] := by
  simp [updatesOf, Notification.effects]

lemma updatesOf_flat_effects (ns : List Notification) :
    updatesOf (ns.flatMap Notification.effects) = ns.map Notification.toUpdate := by
  induction ns with
  | nil => simp [updatesOf]
  | cons n ns ih => simp [updatesOf_append, updatesOf_effects, ih]

lemma driver_loop_stopTimeout (post : List LoopIter) :
    driver_loop (stopTimeoutIter :: post) = ([.queued .Shutdown], some (.ok ())) := rfl

/-! ## Claim C9 -/

/-- Claim C9: generate_correlation_id returns a string of exactly one
character, namely the single draw of the alphanumeric sampler: the
function iterates over a one-element array whose sole element is the
range from 0 to LENGTH, so the LENGTH constant of 16 does not determine
the output length; when every sampler draw is alphanumeric, so is every
character of the result. -/
theorem generate_correlation_id_single_char :
    ∀ sample : Nat → Char,
      (generate_correlation_id sample).length = 1 ∧
      (generate_correlation_id sample).data = [sample 0] ∧
      LENGTH = 16 ∧
      corrIdArray.length = 1 ∧
      ((∀ i, (sample i).isAlphanum = true) →
        (generate_correlation_id sample).data.all (fun c => c.isAlphanum) = true) := by
  intro sample
  refine ⟨rfl, rfl, rfl, rfl, ?_⟩
  intro h
  simp [generate_correlation_id, corrIdArray, h 0]

/-- Witness for claim C9 at a concrete sampler. -/
theorem generate_correlation_id_single_char_witness :
    (generate_correlation_id (fun _ => 'a')).length = 1 ∧
    (generate_correlation_id (fun _ => 'a')).data = ['a'] ∧
    (generate_correlation_id (fun _ => 'a')).data.all (fun c => c.isAlphanum) = true := by
  have h := generate_correlation_id_single_char (fun _ => 'a')
  exact ⟨h.1, h.2.1, h.2.2.2.2 (fun _ => by decide)⟩

/-! ## Claim C8 -/

/-- Claim C8: calling Stop.stop any number of times, also after the
driver loop has terminated (modelled by the stop receiver no longer being
alive), always returns normally to the caller: no call outcome is a
panic, a call with a live receiver just enqueues a signal, and a call
after termination leaves the channel unchanged and merely logs. -/
theorem stop_idempotent_never_panics :
    ∀ (n : Nat) (c : StopChannel),
      (stopCalls n c).2 = List.replicate n (.returned (!c.receiverAlive)) ∧
      (stopCalls n c).1
        = (if c.receiverAlive then
            { pending := c.pending + n, receiverAlive := true }
          else c) ∧
      CallOutcome.panicked ∉ (stopCalls n c).2 := by
  intro n c
  obtain ⟨pnd, alive⟩ := c
  have step_false : ∀ (m : Nat) (q : Nat),
      stopCalls (m + 1) ⟨q, false⟩
        = ((stopCalls m ⟨q, false⟩).1, .returned true :: (stopCalls m ⟨q, false⟩).2) :=
    fun _ _ => rfl
  have step_true : ∀ (m : Nat) (q : Nat),
      stopCalls (m + 1) ⟨q, true⟩
        = ((stopCalls m ⟨q + 1, true⟩).1, .returned false :: (stopCalls m ⟨q + 1, true⟩).2) :=
    fun _ _ => rfl
  cases alive with
  | false =>
    induction n generalizing pnd with
    | zero => simp [stopCalls]
    | succ n ih =>
      obtain ⟨ha, hb, hc⟩ := ih pnd
      simp only [Bool.not_false] at ha ⊢
      simp only [step_false]
      refine ⟨?_, ?_, ?_⟩
      · simp [List.replicate_succ, ha]
      · simpa using hb
      · simp [List.replicate_succ, ha]
  | true =>
    induction n generalizing pnd with
    | zero => simp [stopCalls]
    | succ n ih =>
      obtain ⟨ha, hb, hc⟩ := ih (pnd + 1)
      simp only [Bool.not_true] at ha ⊢
      simp only [step_true]
      refine ⟨?_, ?_, ?_⟩
      · simp [List.replicate_succ, ha]
      · simp only [if_pos rfl] at hb ⊢
        rw [hb]
        have harith : pnd + 1 + n = pnd + (n + 1) := by omega
        rw [harith]
        simp
      · simp [List.replicate_succ, ha]

/-! ## Claim C6 -/

/-- Claim C6: a ping request received at any point in the driver loop
produces exactly one PING_RESPONSE reply on the same correlation id and
no Update, and the iteration neither polls the stop signal (the
conclusion holds for either value of the pending stop signal) nor
terminates the loop: the run continues exactly as the remaining
iterations dictate. -/
theorem ping_reply_no_update_no_stop_check :
    ∀ (cid : String) (p : Payload) (stop chan : Bool) (rest : List LoopIter),
      driver_loop
          ({ recv := .msg { message_type := .PING_REQUEST, correlation_id := cid, content := p },
             stopSet := stop, chanOk := chan, replyOk := true } :: rest)
        = (send_ping_reply cid :: (driver_loop rest).1, (driver_loop rest).2) ∧
      send_ping_reply cid = .sentReply .PING_RESPONSE cid ∧
      updatesOf [send_ping_reply cid] = [] := by
  intro cid p stop chan rest
  refine ⟨?_, rfl, rfl⟩
  simp [driver_loop]

/-! ## Claim C5 -/

/-- Claim C5: for every inbound non-ping message, the message-type tag
determines the Update variant exactly as the spec's mapping table states
(with the peer-message header decoded separately from the message body),
and any message whose type is none of the eight handled notification
types produces no Update, no acknowledgment, and a success result, for
any state of the outbound paths. -/
theorem handle_update_mapping :
    ((∀ (r : ConsensusNotifyPeerConnected) (cid : String),
      handle_update
          { message_type := .CONSENSUS_NOTIFY_PEER_CONNECTED, correlation_id := cid
            content := .peerConnected r } true true
        = ([.queued (.PeerConnected (PeerInfo.fromConsensus (r.peer_info.getD default))),
            .sentReply .CONSENSUS_NOTIFY_ACK cid], .ok ())) ∧
    (∀ (r : ConsensusNotifyPeerDisconnected) (cid : String),
      handle_update
          { message_type := .CONSENSUS_NOTIFY_PEER_DISCONNECTED, correlation_id := cid
            content := .peerDisconnected r } true true
        = ([.queued (.PeerDisconnected r.peer_id),
            .sentReply .CONSENSUS_NOTIFY_ACK cid], .ok ())) ∧
    (∀ (h : ConsensusPeerMessageHeader) (hsig body sender : Bytes) (cid : String),
      handle_update
          { message_type := .CONSENSUS_NOTIFY_PEER_MESSAGE, correlation_id := cid
            content := .peerMessage
              { message := some { header := .parsed h, header_signature := hsig, content := body }
                sender_id := sender } } true true
        = ([.queued (.PeerMessage
              (from_consensus_peer_message
                { header := .parsed h, header_signature := hsig, content := body } h)
              sender),
            .sentReply .CONSENSUS_NOTIFY_ACK cid], .ok ())) ∧
    (∀ (r : ConsensusNotifyBlockNew) (cid : String),
      handle_update
          { message_type := .CONSENSUS_NOTIFY_BLOCK_NEW, correlation_id := cid
            content := .blockNew r } true true
        = ([.queued (.BlockNew (Block.fromConsensus (r.block.getD default))),
            .sentReply .CONSENSUS_NOTIFY_ACK cid], .ok ())) ∧
    (∀ (r : ConsensusNotifyBlockValid) (cid : String),
      handle_update
          { message_type := .CONSENSUS_NOTIFY_BLOCK_VALID, correlation_id := cid
            content := .blockValid r } true true
        = ([.queued (.BlockValid r.block_id),
            .sentReply .CONSENSUS_NOTIFY_ACK cid], .ok ())) ∧
    (∀ (r : ConsensusNotifyBlockInvalid) (cid : String),
      handle_update
          { message_type := .CONSENSUS_NOTIFY_BLOCK_INVALID, correlation_id := cid
            content := .blockInvalid r } true true
        = ([.queued (.BlockInvalid r.block_id),
            .sentReply .CONSENSUS_NOTIFY_ACK cid], .ok ())) ∧
    (∀ (r : ConsensusNotifyBlockCommit) (cid : String),
      handle_update
          { message_type := .CONSENSUS_NOTIFY_BLOCK_COMMIT, correlation_id := cid
            content := .blockCommit r } true true
        = ([.queued (.BlockCommit r.block_id),
            .sentReply .CONSENSUS_NOTIFY_ACK cid], .ok ())) ∧
    (∀ (p : Payload) (cid : String),
      handle_update
          { message_type := .CONSENSUS_NOTIFY_ENGINE_DEACTIVATED, correlation_id := cid
            content := p } true true
        = ([.queued .Shutdown, .sentReply .CONSENSUS_NOTIFY_ACK cid], .ok ()))) ∧
    (∀ (m : Message) (chan reply : Bool),
      m.message_type ∉
        ([.CONSENSUS_NOTIFY_PEER_CONNECTED, .CONSENSUS_NOTIFY_PEER_DISCONNECTED,
          .CONSENSUS_NOTIFY_PEER_MESSAGE, .CONSENSUS_NOTIFY_BLOCK_NEW,
          .CONSENSUS_NOTIFY_BLOCK_VALID, .CONSENSUS_NOTIFY_BLOCK_INVALID,
          .CONSENSUS_NOTIFY_BLOCK_COMMIT, .CONSENSUS_NOTIFY_ENGINE_DEACTIVATED] :
            List MessageType) →
      handle_update m chan reply = ([], .ok ())) := by
  constructor
  · exact ⟨fun r cid => rfl, fun r cid => rfl, fun h hsig body sender cid => rfl,
      fun r cid => rfl, fun r cid => rfl, fun r cid => rfl, fun r cid => rfl,
      fun p cid => rfl⟩
  · rintro ⟨t, cid, c⟩ chan reply hmem
    cases t <;> simp_all [handle_update, decode_update]

/-- Witness for claim C5: the mapping at a concrete peer-connected
notification, and the default arm at a concrete unhandled message type
with the membership hypothesis discharged. -/
theorem handle_update_mapping_witness :
    handle_update
        { message_type := .CONSENSUS_NOTIFY_PEER_CONNECTED, correlation_id := "w"
          content := .peerConnected { peer_info := some { peer_id := [1, 2] } } } true true
      = ([.queued (.PeerConnected { peer_id := [1, 2] }),
          .sentReply .CONSENSUS_NOTIFY_ACK "w"], .ok ()) ∧
    handle_update
        { message_type := .otherTag 99, correlation_id := "w", content := .rawBytes [3] }
        true false
      = ([], .ok ()) := by
  constructor
  · exact handle_update_mapping.1.1 { peer_info := some { peer_id := [1, 2] } } "w"
  · exact handle_update_mapping.2
      { message_type := .otherTag 99, correlation_id := "w", content := .rawBytes [3] }
      true false (by decide)

/-! ## Claim C3 -/

/-- Claim C3: for every decodable non-ping notification, the
acknowledgment (a CONSENSUS_NOTIFY_ACK on the message's correlation id)
appears in the effect trace only in the branch where the Update was
successfully queued, and there strictly after the queueing effect; if
queueing fails, the trace holds neither the Update nor any
acknowledgment, handle_update returns a send error, and the driver loop
iteration terminates the run with that error. -/
theorem ack_only_after_successful_queue :
    ∀ (n : Notification) (chan reply stop : Bool) (rest : List LoopIter),
      (handle_update n.toMessage chan reply
        = if chan then
            if reply then
              ([.queued n.toUpdate, .sentReply .CONSENSUS_NOTIFY_ACK n.cid], .ok ())
            else ([.queued n.toUpdate], .error (.SendError "reply send failed"))
          else ([], .error (.SendError "update receiver disconnected"))) ∧
      (driver_loop
          ({ recv := .msg n.toMessage, stopSet := stop, chanOk := false, replyOk := reply } :: rest)
        = ([], some (.error (.SendError "update receiver disconnected")))) := by
  intro n chan reply stop rest
  constructor
  · cases chan <;> cases reply <;>
      simp [handle_update, n.decode_toMessage, n.cid_toMessage]
  · simp [driver_loop, n.toMessage_not_ping, handle_update, n.decode_toMessage]

/-! ## Claim C2 -/

/-- Counterexample to claim C2: a run in which the loop receives an
engine-deactivated notification and then a block-commit notification.
The loop emits Update.Shutdown for the deactivation, keeps running, and
emits a further BlockCommit Update after it — so Shutdown emitted on the
event channel is not terminal for the loop run, contradicting the claim
that no further Update follows a Shutdown. -/
theorem shutdown_not_terminal_cex :
    driver_loop
      [ { recv := .msg { message_type := .CONSENSUS_NOTIFY_ENGINE_DEACTIVATED,
                         correlation_id := "a", content := .rawBytes [] },
          stopSet := false, chanOk := true, replyOk := true },
        { recv := .msg { message_type := .CONSENSUS_NOTIFY_BLOCK_COMMIT,
                         correlation_id := "b", content := .blockCommit { block_id := [7] } },
          stopSet := false, chanOk := true, replyOk := true } ]
      = ([.queued .Shutdown, .sentReply .CONSENSUS_NOTIFY_ACK "a",
          .queued (.BlockCommit [7]), .sentReply .CONSENSUS_NOTIFY_ACK "b"], none) ∧
    updatesOf
        [.queued .Shutdown, .sentReply .CONSENSUS_NOTIFY_ACK "a",
         .queued (.BlockCommit [7]), .sentReply .CONSENSUS_NOTIFY_ACK "b"]
      = [.Shutdown, .BlockCommit [7]] :=
  ⟨rfl, rfl⟩

/-- Claim C2 (amended): Updates are emitted strictly in the order the
corresponding messages were received, and the Shutdown the loop emits
upon observing the stop signal is the last Update of the run — the run
terminates immediately, ignoring any further input; however a Shutdown
translated from an engine-deactivated notification does not terminate
the loop and further Updates may follow it (see the counterexample). -/
theorem updates_ordered_and_stop_shutdown_terminal :
    ∀ (ns : List Notification) (post : List LoopIter),
      driver_loop (ns.map cleanIter ++ stopTimeoutIter :: post)
        = (ns.flatMap Notification.effects ++ [.queued .Shutdown], some (.ok ())) ∧
      updatesOf (ns.flatMap Notification.effects ++ [.queued .Shutdown])
        = ns.map Notification.toUpdate ++ [.Shutdown] := by
  intro ns post
  constructor
  · rw [driver_loop_clean_append, driver_loop_stopTimeout]
  · rw [updatesOf_append, updatesOf_flat_effects]
    rfl

/-! ## Claim C4 -/

/-- Counterexample to claim C4: the stop signal is pending during an
entire polling interval in which a ping request arrives, yet at the end
of that iteration the loop has neither emitted Shutdown nor terminated
(the ping arm does not poll the stop signal), contradicting the claim
that the signal is observed within one polling interval regardless of
what inbound messages arrive. -/
theorem stop_not_observed_during_ping_cex :
    driver_loop
      [ { recv := .msg { message_type := .PING_REQUEST, correlation_id := "c",
                         content := .rawBytes [] },
          stopSet := true, chanOk := true, replyOk := true } ]
      = ([.sentReply .PING_RESPONSE "c"], none) :=
  rfl

/-- Claim C4 (amended): a pending stop signal is observed at the next
loop-iteration boundary whose receive outcome is a timeout or a
successfully dispatched non-ping message — in either case the loop emits
Update.Shutdown and terminates successfully, ignoring all further input —
but an iteration that receives a ping request does not poll the stop
signal and the loop continues past it. -/
theorem stop_observed_at_next_nonping_boundary :
    ∀ (post rest : List LoopIter) (n : Notification) (cid : String) (p : Payload)
      (stop chan : Bool),
      driver_loop (stopTimeoutIter :: post) = ([.queued .Shutdown], some (.ok ())) ∧
      driver_loop
          ({ recv := .msg n.toMessage, stopSet := true, chanOk := true, replyOk := true } :: post)
        = (n.effects ++ [.queued .Shutdown], some (.ok ())) ∧
      driver_loop
          ({ recv := .msg { message_type := .PING_REQUEST, correlation_id := cid, content := p },
             stopSet := stop, chanOk := chan, replyOk := true } :: rest)
        = (.sentReply .PING_RESPONSE cid :: (driver_loop rest).1, (driver_loop rest).2) := by
  intro post rest n cid p stop chan
  refine ⟨rfl, ?_, ?_⟩
  · simp [driver_loop, n.toMessage_not_ping, handle_update_clean]
  · simp [driver_loop, send_ping_reply]

/-! ## Claim C10 -/

/-- Claim C10: while waiting for activation, wait_until_active silently
drops every iteration whose receive outcome is a timeout or a message of
any type other than the engine-activated notification — ping requests
included: such a prefix contributes no effect at all (no ping reply, no
acknowledgment), and the wait continues exactly as the remaining
iterations dictate. -/
theorem wait_until_active_drops_non_activation :
    ∀ (pre rest : List WaitIter),
      pre.all WaitIter.ignored = true →
      wait_until_active (pre ++ rest) = wait_until_active rest := by
  intro pre rest h
  induction pre with
  | nil => rfl
  | cons it pre ih =>
    simp only [List.all_cons, Bool.and_eq_true] at h
    obtain ⟨h1, h2⟩ := h
    have htail := ih h2
    obtain ⟨r, rok⟩ := it
    cases r with
    | timeout => simpa [wait_until_active] using htail
    | disconnected => simp [WaitIter.ignored] at h1
    | recvErr e => simp [WaitIter.ignored] at h1
    | msg m =>
      simp only [WaitIter.ignored, decide_eq_true_eq] at h1
      simpa [wait_until_active, h1] using htail

/-- Witness for claim C10: a single ignored ping request produces no
effect (in particular no ping reply) and leaves the wait in progress. -/
theorem wait_until_active_drops_non_activation_witness :
    ([{ recv := .msg { message_type := .PING_REQUEST, correlation_id := "c",
                       content := .rawBytes [] }, replyOk := true }] :
        List WaitIter).all WaitIter.ignored = true ∧
    wait_until_active
        [{ recv := .msg { message_type := .PING_REQUEST, correlation_id := "c",
                          content := .rawBytes [] }, replyOk := true }]
      = ([], none) := by
  refine ⟨by decide, ?_⟩
  have h := wait_until_active_drops_non_activation
    [{ recv := .msg { message_type := .PING_REQUEST, correlation_id := "c",
                      content := .rawBytes [] }, replyOk := true }]
    [] (by decide)
  simpa using h

/-! ## Register backoff lemmas -/

lemma expectedDelay_mono {i j : Nat} (h : i ≤ j) : expectedDelay i ≤ expectedDelay j :=
  min_le_min (Nat.mul_le_mul (le_refl 100) (Nat.pow_le_pow_right (by norm_num) h)) le_rfl

lemma retryStep_expectedDelay (i : Nat) :
    retryStep (expectedDelay i) = expectedDelay (i + 1) := by
  rcases Nat.lt_or_ge i 5 with h | h
  · interval_cases i <;> decide
  · have h32 : (32 : Nat) ≤ 2 ^ i := by
      calc (32 : Nat) = 2 ^ 5 := by norm_num
        _ ≤ 2 ^ i := Nat.pow_le_pow_right (by norm_num) h
    have h1 : (3000 : Nat) ≤ 100 * 2 ^ i := by
      calc (3000 : Nat) ≤ 100 * 32 := by norm_num
        _ ≤ 100 * 2 ^ i := Nat.mul_le_mul (le_refl 100) h32
    have h2 : (3000 : Nat) ≤ 100 * 2 ^ (i + 1) := by
      calc (3000 : Nat) ≤ 100 * 2 ^ i := h1
        _ ≤ 100 * 2 ^ (i + 1) :=
          Nat.mul_le_mul (le_refl 100) (Nat.pow_le_pow_right (by norm_num) (Nat.le_succ i))
    simp only [expectedDelay]
    rw [min_eq_right h1, min_eq_right h2]
    decide

lemma registerLoop_notReady_cons (r0 : ConsensusRegisterResponse) (d k : Nat)
    (next : Message) (rest : List RegReply) :
    registerLoop
        { message_type := .CONSENSUS_REGISTER_RESPONSE, correlation_id := ""
          content := .registerResponse { r0 with status := .NOT_READY } }
        d k (.ok next :: rest)
      = (.slept d :: .sent k :: (registerLoop next (retryStep d) (k + 1) rest).1,
         (registerLoop next (retryStep d) (k + 1) rest).2) := rfl

lemma registerLoop_ok (resp : ConsensusRegisterResponse) (d k : Nat)
    (replies : List RegReply) :
    registerLoop
        { message_type := .CONSENSUS_REGISTER_RESPONSE, correlation_id := ""
          content := .registerResponse { resp with status := .OK } }
        d k replies
      = ([], some (.ok
          (if resp.chain_head.isSome && resp.local_peer_info.isSome then
            some (startupOfRegister { resp with status := .OK })
          else none))) := by
  cases replies <;> rfl

lemma registerLoop_unexpected (m : Message)
    (hm : m.message_type ≠ .CONSENSUS_REGISTER_RESPONSE) (d k : Nat)
    (rest : List RegReply) :
    registerLoop m d k rest
      = ([], some (.error (.ReceiveError
          ("Received unexpected message type: " ++ m.message_type.debugName)))) := by
  obtain ⟨t, cid, c⟩ := m
  cases t <;> first
    | exact absurd rfl hm
    | (cases rest <;> rfl)

lemma range_flatMap_succ_shift (n i : Nat) :
    (List.range (n + 1)).flatMap
        (fun j => [RegAction.slept (expectedDelay (i + j)), RegAction.sent (i + j + 1)])
      = .slept (expectedDelay i) :: .sent (i + 1) ::
        (List.range n).flatMap
          (fun j => [RegAction.slept (expectedDelay (i + 1 + j)), RegAction.sent (i + 1 + j + 1)]) := by
  induction n with
  | zero => rfl
  | succ m ih =>
    rw [List.range_succ, List.flatMap_append, ih, List.range_succ, List.flatMap_append]
    simp only [List.flatMap_cons, List.flatMap_nil, List.append_nil, List.cons_append,
      List.append_assoc]
    have e1 : i + (m + 1) = i + 1 + m := by omega
    rw [e1]

lemma registerLoop_notReady_seq :
    ∀ (rs : List ConsensusRegisterResponse) (r0 : ConsensusRegisterResponse) (i : Nat)
      (next : Message) (rest : List RegReply),
      registerLoop
          { message_type := .CONSENSUS_REGISTER_RESPONSE, correlation_id := ""
            content := .registerResponse { r0 with status := .NOT_READY } }
          (expectedDelay i) (i + 1) (rs.map notReadyWire ++ .ok next :: rest)
        = ((List.range (rs.length + 1)).flatMap
              (fun j => [RegAction.slept (expectedDelay (i + j)), RegAction.sent (i + j + 1)])
            ++ (registerLoop next (expectedDelay (i + rs.length + 1)) (i + rs.length + 2) rest).1,
           (registerLoop next (expectedDelay (i + rs.length + 1)) (i + rs.length + 2) rest).2) := by
  intro rs
  induction rs with
  | nil =>
    intro r0 i next rest
    rw [List.map_nil, List.nil_append, registerLoop_notReady_cons, retryStep_expectedDelay]
    rfl
  | cons r1 rs ih =>
    intro r0 i next rest
    have h := ih r1 (i + 1) next rest
    have harith1 : i + 1 + rs.length + 1 = i + (rs.length + 1) + 1 := by omega
    have harith2 : i + 1 + rs.length + 2 = i + (rs.length + 1) + 2 := by omega
    rw [harith1, harith2] at h
    simp only [List.map_cons, List.cons_append, notReadyWire, List.length_cons]
    rw [registerLoop_notReady_cons, retryStep_expectedDelay, h]
    conv_rhs => rw [range_flatMap_succ_shift]
    simp [List.cons_append, List.append_assoc]

lemma register_notReady_seq (rs : List ConsensusRegisterResponse) (next : Message)
    (rest : List RegReply) :
    register (rs.map notReadyWire ++ .ok next :: rest)
      = (.sent 0 :: ((List.range rs.length).flatMap
            (fun j => [RegAction.slept (expectedDelay j), RegAction.sent (j + 1)])
          ++ (registerLoop next (expectedDelay rs.length) (rs.length + 1) rest).1),
         (registerLoop next (expectedDelay rs.length) (rs.length + 1) rest).2) := by
  cases rs with
  | nil =>
    simp only [List.map_nil, List.nil_append, register]
    rw [show INITAL_RETRY_DELAY = expectedDelay 0 from by decide]
    rfl
  | cons r1 rs =>
    have h := registerLoop_notReady_seq rs r1 0 next rest
    simp only [Nat.zero_add] at h
    simp only [List.map_cons, List.cons_append, notReadyWire, register, List.length_cons]
    rw [show INITAL_RETRY_DELAY = expectedDelay 0 from by decide, h]

lemma expectedRegActions_eq (n : Nat) :
    expectedRegActions n
      = .sent 0 :: (List.range n).flatMap
          (fun j => [RegAction.slept (expectedDelay j), RegAction.sent (j + 1)]) := rfl

lemma expectedRegActions_succ (n : Nat) :
    expectedRegActions (n + 1)
      = expectedRegActions n ++ [.slept (expectedDelay n), .sent (n + 1)] := by
  simp [expectedRegActions, List.range_succ, List.flatMap_append]

lemma sleepsOf_expected (n : Nat) :
    sleepsOf (expectedRegActions n) = (List.range n).map expectedDelay := by
  induction n with
  | zero => rfl
  | succ m ih =>
    rw [expectedRegActions_succ, List.range_succ, List.map_append]
    simp only [sleepsOf, List.filterMap_append] at ih ⊢
    rw [ih]
    rfl

lemma sendsOf_expected (n : Nat) :
    sendsOf (expectedRegActions n) = List.range (n + 1) := by
  induction n with
  | zero => rfl
  | succ m ih =>
    rw [expectedRegActions_succ, List.range_succ]
    simp only [sendsOf, List.filterMap_append] at ih ⊢
    rw [ih]
    rfl

lemma chain_expected_delays (n : Nat) :
    List.Chain' (· ≤ ·) ((List.range n).map expectedDelay) := by
  apply List.Pairwise.chain'
  rw [List.pairwise_map]
  exact (List.pairwise_lt_range n).imp (fun h => expectedDelay_mono (Nat.le_of_lt h))

/-! ## Claim C1 -/

/-- Claim C1: for every sequence of NOT_READY registration responses
followed by an OK response, register performs the initial send and then
exactly one resend per NOT_READY, each send drawing a fresh
correlation-id generator invocation (invocation indices 0, 1, 2, …, all
distinct), sleeping between attempts with delays 100, 200, 400, … ms,
doubling and capped at 3000 ms and never decreasing within the
handshake, and returns a state exactly when the OK response carries both
a chain head and local peer info, and none otherwise. -/
theorem register_backoff_retries_and_result :
    ∀ (rs : List ConsensusRegisterResponse) (resp : ConsensusRegisterResponse),
      register (rs.map notReadyWire ++ [okWire resp])
        = (expectedRegActions rs.length,
           some (.ok
             (if resp.chain_head.isSome && resp.local_peer_info.isSome then
               some (startupOfRegister { resp with status := .OK })
             else none))) ∧
      sleepsOf (expectedRegActions rs.length)
        = (List.range rs.length).map (fun i => min (100 * 2 ^ i) 3000) ∧
      sendsOf (expectedRegActions rs.length) = List.range (rs.length + 1) ∧
      (sendsOf (expectedRegActions rs.length)).Nodup ∧
      List.Chain' (· ≤ ·) (sleepsOf (expectedRegActions rs.length)) := by
  intro rs resp
  refine ⟨?_, sleepsOf_expected _, sendsOf_expected _, ?_, ?_⟩
  · have h := register_notReady_seq rs
      { message_type := .CONSENSUS_REGISTER_RESPONSE, correlation_id := ""
        content := .registerResponse { resp with status := .OK } } []
    rw [show ([okWire resp] : List RegReply)
          = .ok { message_type := .CONSENSUS_REGISTER_RESPONSE, correlation_id := ""
                  content := .registerResponse { resp with status := .OK } } :: [] from rfl]
    rw [h, registerLoop_ok, expectedRegActions_eq]
    simp
  · rw [sendsOf_expected]
    exact List.nodup_range _
  · rw [sleepsOf_expected]
    exact chain_expected_delays _

/-! ## Claim C7 -/

/-- Counterexample to claim C7: register receives a reply whose message
type is not the registration-response type and fails — but with the
Error.ReceiveError kind, the very same error kind the code uses for
transport receive failures and for registration-failure statuses, not
with an error kind distinct from the receive error kind as the claim
states. -/
theorem register_unexpected_type_error_kind_cex :
    register
        [.ok { message_type := .CONSENSUS_NOTIFY_ENGINE_ACTIVATED, correlation_id := "y",
               content := .rawBytes [] }]
      = ([.sent 0], some (.error (.ReceiveError
          "Received unexpected message type: CONSENSUS_NOTIFY_ENGINE_ACTIVATED"))) := rfl

/-- Claim C7 (amended): a reply of any message type other than the
registration-response type, arriving after any number of NOT_READY
rounds, makes register fail immediately — no further send and no further
sleep — with an Error.ReceiveError describing the unexpected message
type (the code reuses the receive-error kind for this protocol
violation; it is not a distinct error kind). -/
theorem register_unexpected_type_no_retry :
    ∀ (rs : List ConsensusRegisterResponse) (m : Message) (rest : List RegReply),
      m.message_type ≠ .CONSENSUS_REGISTER_RESPONSE →
      register (rs.map notReadyWire ++ .ok m :: rest)
        = (expectedRegActions rs.length,
           some (.error (.ReceiveError
             ("Received unexpected message type: " ++ m.message_type.debugName)))) := by
  intro rs m rest hm
  rw [register_notReady_seq rs m rest, registerLoop_unexpected m hm, expectedRegActions_eq]
  simp

/-- Witness for claim C7 at one NOT_READY round followed by a ping
response, with the message-type hypothesis discharged. -/
theorem register_unexpected_type_no_retry_witness :
    register
        [notReadyWire { status := .NOT_READY, chain_head := none, peers := [],
                        local_peer_info := none },
         .ok { message_type := .PING_RESPONSE, correlation_id := "z", content := .rawBytes [] }]
      = ([.sent 0, .slept 100, .sent 1], some (.error (.ReceiveError
          "Received unexpected message type: PING_RESPONSE"))) := by
  have h := register_unexpected_type_no_retry
    [{ status := .NOT_READY, chain_head := none, peers := [], local_peer_info := none }]
    { message_type := .PING_RESPONSE, correlation_id := "z", content := .rawBytes [] }
    [] (by decide)
  simpa [expectedRegActions, expectedDelay] using h
